import Mathlib

/-!
Shallow embedding of the RealSense ROS2 base component
(src/realsense_ros/src/rs_base.cpp): the per-stream configuration state,
the reconfiguration handlers (toggleStream, changeResolution, changeFPS),
the calibration-cache update (updateVideoStreamCalibData), the image
publishing path (publishImageTopic) and the stream setup
(setupStream).  Stateful C++ methods become pure functions returning the
new state together with the structured result and the list of pipeline
events (stop / sleep / start) they perform, in order.  The SDK
`can_resolve` query is an external oracle and is passed in as a function
argument.  C++ `int` narrowing of 64-bit parameter values is modelled
explicitly by `toInt32`.
-/

namespace RealSense

/-- Stream kinds, mirroring the rs2_stream values the component uses. -/
inductive StreamKind
  | color
  | depth
  | infrared
  | fisheye
  | accel
  | gyro
  | pose
deriving DecidableEq, Repr

/-- A stream identity: the pair (kind, index), mirroring stream_index_pair. -/
structure StreamId where
  kind : StreamKind
  index : Int
deriving DecidableEq, Repr

/-- Modelled from the spec: the nine catalogued stream identities (ACCEL, GYRO,
POSE, COLOR, DEPTH at index 0; INFRARED 1 and 2; FISHEYE 1 and 2) are declared
in a header that is not among the provided sources; the spec fixes the kinds
and the 1-vs-2 indexing of INFRARED and FISHEYE. -/
def ACCEL : StreamId := ⟨StreamKind.accel, 0⟩

/-- Catalogued GYRO stream identity. -/
def GYRO : StreamId := ⟨StreamKind.gyro, 0⟩

/-- Catalogued POSE stream identity. -/
def POSE : StreamId := ⟨StreamKind.pose, 0⟩

/-- Catalogued COLOR stream identity. -/
def COLOR : StreamId := ⟨StreamKind.color, 0⟩

/-- Catalogued DEPTH stream identity. -/
def DEPTH : StreamId := ⟨StreamKind.depth, 0⟩

/-- Catalogued first INFRARED stream identity. -/
def INFRA1 : StreamId := ⟨StreamKind.infrared, 1⟩

/-- Catalogued second INFRARED stream identity. -/
def INFRA2 : StreamId := ⟨StreamKind.infrared, 2⟩

/-- Catalogued first FISHEYE stream identity. -/
def FISHEYE1 : StreamId := ⟨StreamKind.fisheye, 1⟩

/-- Catalogued second FISHEYE stream identity. -/
def FISHEYE2 : StreamId := ⟨StreamKind.fisheye, 2⟩

/-- Modelled from the spec: the STREAM_FORMAT catalog table lives in a header
that is not among the provided sources; it maps a stream kind to the
pixel/sample format requested from the SDK.  The concrete tokens are opaque
here; only which entry is picked matters. -/
def STREAM_FORMAT : StreamKind → String
  | StreamKind.color => "RGB8"
  | StreamKind.depth => "Z16"
  | StreamKind.infrared => "Y8"
  | StreamKind.fisheye => "RAW8"
  | StreamKind.accel => "MOTION_XYZ32F"
  | StreamKind.gyro => "MOTION_XYZ32F"
  | StreamKind.pose => "SIX_DOF"

/-- Modelled from the spec: the MSG_ENCODING catalog table (header not among
the provided sources) maps a stream kind to the middleware pixel encoding. -/
def MSG_ENCODING : StreamKind → String
  | StreamKind.color => "rgb8"
  | StreamKind.depth => "16UC1"
  | StreamKind.infrared => "mono8"
  | StreamKind.fisheye => "mono8"
  | StreamKind.accel => ""
  | StreamKind.gyro => ""
  | StreamKind.pose => ""

/-- Modelled from the spec: the OPTICAL_FRAME_ID catalog table (header not
among the provided sources) maps a stream identity to the frame-of-reference
string put in message headers; the spec fixes COLOR's entry as
camera_color_optical_frame and describes the rest as per-stream strings. -/
def OPTICAL_FRAME_ID (s : StreamId) : String :=
  match s.kind with
  | StreamKind.color => "camera_color_optical_frame"
  | StreamKind.depth => "camera_depth_optical_frame"
  | StreamKind.infrared => "camera_infra" ++ toString s.index ++ "_optical_frame"
  | StreamKind.fisheye => "camera_fisheye" ++ toString s.index ++ "_optical_frame"
  | StreamKind.accel => "camera_accel_optical_frame"
  | StreamKind.gyro => "camera_gyro_optical_frame"
  | StreamKind.pose => "camera_pose_optical_frame"

/-- An entry of the SDK config object: either a default profile request
(enable_stream with kind and index only, used for IMU/POSE streams) or a full
video profile request (enable_stream with width, height, format and fps). -/
inductive ConfigRequest
  | defaultProfile
  | videoProfile (width height : Int) (format : String) (fps : Int)
deriving DecidableEq, Repr

/-- The per-stream width/height/fps record (VideoStreamInfo). -/
structure VideoStreamInfo where
  width : Int
  height : Int
  fps : Int
deriving DecidableEq, Repr

/-- A message header: frame-of-reference id and timestamp.  Time is abstract
(an integer tick). -/
structure Header where
  frame_id : String
  stamp : Int
deriving DecidableEq, Repr

/-- The camera-info message: calibration matrices K (3 by 3, row-major), P
(3 by 4, row-major), R (3 by 3, row-major), the distortion model name and the
distortion coefficients d.  The matrix arrays are modelled as functions from
the index; a freshly constructed message has every cell zero, mirroring
zero-initialised ROS message fields. -/
structure CameraInfo where
  header : Header
  width : Int
  height : Int
  k : Nat → ℚ
  p : Nat → ℚ
  r : Nat → ℚ
  distortion_model : String
  d : List ℚ

/-- A default-constructed camera-info message: all cells zero, empty strings,
as ROS zero-initialises message fields (and as std::map operator[] default
constructs a missing entry). -/
def defaultCameraInfo : CameraInfo :=
  { header := { frame_id := "", stamp := 0 }
    width := 0
    height := 0
    k := fun _ => 0
    p := fun _ => 0
    r := fun _ => 0
    distortion_model := ""
    d := [] }

/-- The component state: the enable map, the SDK config object (a per-stream
optional request, mirroring enable_stream / disable_stream on rs2::config),
the per-stream VideoStreamInfo map and the camera-info cache.  C++ std::map
operator[] default-constructs missing entries, so the maps are total
functions with the default-constructed value for untouched keys. -/
structure RSState where
  enable : StreamId → Bool
  cfg : StreamId → Option ConfigRequest
  stream_info : StreamId → VideoStreamInfo
  camera_info : StreamId → CameraInfo

/-- Point update of a per-stream table. -/
def updMap {α : Type} (f : StreamId → α) (s : StreamId) (a : α) : StreamId → α :=
  fun t => if t = s then a else f t

/-- Point update of a matrix-array cell. -/
def updIdx (f : Nat → ℚ) (i : Nat) (v : ℚ) : Nat → ℚ :=
  fun j => if j = i then v else f j

/-- Pipeline events a reconfiguration handler performs, in order:
pipeline_.stop(), rclcpp::sleep_for (milliseconds), pipeline_.start(...). -/
inductive Event
  | stop
  | sleep (ms : Nat)
  | start
deriving DecidableEq, Repr

/-- An rclcpp::Parameter value as the handlers inspect it: its type tag and
payload.  Integer parameters are 64-bit in the middleware. -/
inductive Param
  | boolParam (b : Bool)
  | intParam (i : Int)
  | intArrayParam (xs : List Int)
  | otherParam
deriving DecidableEq, Repr

/-- Whether the parameter has boolean type (rclcpp::ParameterType::PARAMETER_BOOL). -/
def Param.isBool : Param → Bool
  | Param.boolParam _ => true
  | _ => false

/-- Whether the parameter has integer-array type (PARAMETER_INTEGER_ARRAY). -/
def Param.isIntArray : Param → Bool
  | Param.intArrayParam _ => true
  | _ => false

/-- Whether the parameter has integer type (PARAMETER_INTEGER). -/
def Param.isInt : Param → Bool
  | Param.intParam _ => true
  | _ => false

/-- The rcl_interfaces SetParametersResult as the handlers build it. -/
structure Result where
  successful : Bool
  reason : String
deriving DecidableEq, Repr

/-- C++ narrowing of an int64_t value into a 32-bit int (static_cast<int>),
two's-complement wrap-around. -/
def toInt32 (x : Int) : Int :=
  (x + 2147483648) % 4294967296 - 2147483648

/-- RealSenseBase::toggleStream (rs_base.cpp lines 239-269): reject non-bool
parameters; on a disabled-to-enabled transition add the stream to the config
(default profile for ACCEL/GYRO/POSE, the current VideoStreamInfo profile
otherwise), restart the pipeline with a 200 ms settling sleep and set the
enable bit; on enabled-to-disabled remove the stream from the config and
clear the bit (no restart); otherwise report the no-op failure. -/
def toggleStream (s : RSState) (stream : StreamId) (param : Param) :
    RSState × Result × List Event :=
  match param with
  | Param.boolParam b =>
    if b = true ∧ s.enable stream = false then
      let req : ConfigRequest :=
        if stream = ACCEL ∨ stream = GYRO ∨ stream = POSE then
          ConfigRequest.defaultProfile
        else
          ConfigRequest.videoProfile (s.stream_info stream).width
            (s.stream_info stream).height (STREAM_FORMAT stream.kind)
            (s.stream_info stream).fps
      ({ s with
          cfg := updMap s.cfg stream (some req)
          enable := updMap s.enable stream true },
        { successful := true, reason := "" },
        [Event.stop, Event.sleep 200, Event.start])
    else if b = false ∧ s.enable stream = true then
      ({ s with
          cfg := updMap s.cfg stream none
          enable := updMap s.enable stream false },
        { successful := true, reason := "" }, [])
    else
      (s, { successful := false,
            reason := "Parameter is equal to the previous value. Do nothing." }, [])
  | _ =>
    (s, { successful := false, reason := "Type should be boolean." }, [])

/-- The config proposal changeResolution installs via cfg_.enable_stream:
the new width/height (narrowed to int) with the stream's current fps. -/
def resolutionProposal (s : RSState) (stream : StreamId) (w h : Int) :
    StreamId → Option ConfigRequest :=
  updMap s.cfg stream (some (ConfigRequest.videoProfile (toInt32 w) (toInt32 h)
    (STREAM_FORMAT stream.kind) (s.stream_info stream).fps))

/-- The config proposal changeFPS installs via cfg_.enable_stream: the
stream's current width/height with the new fps. -/
def fpsProposal (s : RSState) (stream : StreamId) (fps : Int) :
    StreamId → Option ConfigRequest :=
  updMap s.cfg stream (some (ConfigRequest.videoProfile
    (s.stream_info stream).width (s.stream_info stream).height
    (STREAM_FORMAT stream.kind) fps))

/-- RealSenseBase::changeResolution (rs_base.cpp lines 271-294): reject
non-integer-array parameters; install the new (w,h) proposal in the config,
ask the SDK oracle whether it resolves; on yes restart the pipeline (stop
then start, no settling sleep) when the stream is enabled and commit (w,h)
to stream_info either way; on no report the failure — the source does not
revert the config.  Indexing res[0]/res[1] on a too-short array is
out-of-bounds in the source and yields none here. -/
def changeResolution (canResolve : (StreamId → Option ConfigRequest) → Bool)
    (s : RSState) (stream : StreamId) (param : Param) :
    Option (RSState × Result × List Event) :=
  match param with
  | Param.intArrayParam res =>
    (res[0]?).bind fun w =>
    (res[1]?).bind fun h =>
    let cfg2 := resolutionProposal s stream w h
    if canResolve cfg2 then
      let events := if s.enable stream = true then [Event.stop, Event.start] else []
      some ({ s with
          cfg := cfg2
          stream_info := updMap s.stream_info stream
            { s.stream_info stream with width := toInt32 w, height := toInt32 h } },
        { successful := true, reason := "" }, events)
    else
      some ({ s with cfg := cfg2 },
        { successful := false, reason := "Unsupported resolution." }, [])
  | _ =>
    some (s, { successful := false, reason := "Type should be integer array." }, [])

/-- RealSenseBase::changeFPS (rs_base.cpp lines 296-319): reject non-integer
parameters; install the new fps proposal in the config, ask the SDK oracle;
on yes restart the pipeline (stop then start, no settling sleep) when the
stream is enabled and commit the fps either way; on no report the failure —
the source does not revert the config. -/
def changeFPS (canResolve : (StreamId → Option ConfigRequest) → Bool)
    (s : RSState) (stream : StreamId) (param : Param) :
    RSState × Result × List Event :=
  match param with
  | Param.intParam i =>
    let fps := toInt32 i
    let cfg2 := fpsProposal s stream fps
    if canResolve cfg2 then
      let events := if s.enable stream = true then [Event.stop, Event.start] else []
      ({ s with
          cfg := cfg2
          stream_info := updMap s.stream_info stream
            { s.stream_info stream with fps := fps } },
        { successful := true, reason := "" }, events)
    else
      ({ s with cfg := cfg2 },
        { successful := false, reason := "Unsupported configuration." }, [])
  | _ =>
    (s, { successful := false, reason := "Type should be integer." }, [])

/-- The declared-parameter values setupStream reads from the node: the
enabled flag and, for video streams, the resolution array and fps. -/
structure SetupParams where
  enabled : Bool
  resolution : List Int
  fps : Int
deriving DecidableEq, Repr

/-- RealSenseBase::setupStream (rs_base.cpp lines 48-102): for ACCEL/GYRO and
POSE create the publishers and, when enabled, set the enable bit and add a
default profile to the config; for every other stream take the video branch:
read the resolution array (only the six video identities actually assign it;
any other identity leaves the local vector empty), build the VideoStreamInfo
from res[0]/res[1] (out-of-bounds — modelled as none — when the vector is too
short) and, when enabled, set the enable bit and add the video profile to the
config.  Publisher creation has no observable state here. -/
def setupStream (s : RSState) (stream : StreamId) (p : SetupParams) :
    Option RSState :=
  if stream = ACCEL ∨ stream = GYRO then
    some (if p.enabled = true then
      { s with
          enable := updMap s.enable stream true
          cfg := updMap s.cfg stream (some ConfigRequest.defaultProfile) }
      else s)
  else if stream = POSE then
    some (if p.enabled = true then
      { s with
          enable := updMap s.enable stream true
          cfg := updMap s.cfg stream (some ConfigRequest.defaultProfile) }
      else s)
  else
    let res : List Int :=
      if stream = COLOR ∨ stream = DEPTH ∨ stream = INFRA1 ∨ stream = INFRA2 then
        p.resolution
      else if stream = FISHEYE1 ∨ stream = FISHEYE2 then
        p.resolution
      else []
    (res[0]?).bind fun w =>
    (res[1]?).bind fun h =>
    let info : VideoStreamInfo := ⟨toInt32 w, toInt32 h, toInt32 p.fps⟩
    let s2 := { s with stream_info := updMap s.stream_info stream info }
    some (if p.enabled = true then
      { s2 with
          enable := updMap s2.enable stream true
          cfg := updMap s2.cfg stream (some (ConfigRequest.videoProfile
            info.width info.height (STREAM_FORMAT stream.kind) info.fps)) }
      else s2)

/-- A video frame as publishImageTopic inspects it: the profile's stream
type and index and the frame dimensions. -/
structure VideoFrame where
  kind : StreamKind
  index : Int
  width : Int
  height : Int
deriving DecidableEq, Repr

/-- An image message: header, encoding and dimensions. -/
structure ImageMsg where
  header : Header
  encoding : String
  width : Int
  height : Int
deriving DecidableEq, Repr

/-- RealSenseBase::publishImageTopic (rs_base.cpp lines 104-138): build the
image message from the frame (via the non-intra-process shared-pointer path
or the intra-process unique-pointer path — both set the same header fields),
set header.frame_id from the OPTICAL_FRAME_ID catalog and header.stamp from
the caller's time, publish it, stamp the cached camera-info with the same
time and publish that too.  Returns the new state (camera_info updated), the
published image message and the published camera-info message. -/
def publishImageTopic (s : RSState) (frame : VideoFrame) (time : Int)
    (intraProcess : Bool) : RSState × ImageMsg × CameraInfo :=
  let type_index : StreamId := ⟨frame.kind, frame.index⟩
  let img : ImageMsg :=
    if intraProcess = false then
      { header := { frame_id := OPTICAL_FRAME_ID type_index, stamp := time }
        encoding := MSG_ENCODING frame.kind
        width := frame.width
        height := frame.height }
    else
      { header := { frame_id := OPTICAL_FRAME_ID type_index, stamp := time }
        encoding := MSG_ENCODING frame.kind
        width := frame.width
        height := frame.height }
  let ci := s.camera_info type_index
  let ci2 : CameraInfo := { ci with header := { ci.header with stamp := time } }
  ({ s with camera_info := updMap s.camera_info type_index ci2 }, img, ci2)

/-- The SDK intrinsics of a video profile: dimensions, principal point,
focal lengths and the five distortion coefficients. -/
structure Intrinsics where
  width : Int
  height : Int
  ppx : ℚ
  ppy : ℚ
  fx : ℚ
  fy : ℚ
  coeffs : Fin 5 → ℚ

/-- A video stream profile: its identity and intrinsics. -/
structure VideoProfile where
  kind : StreamKind
  index : Int
  intr : Intrinsics

/-- The value the unconditional projection pass of updateVideoStreamCalibData
writes into p.at(3) (Tx) for any intrinsics: the source (rs_base.cpp line
157) sets this raw, non-forced translation term to 0. -/
def rawProjTx (_ : Intrinsics) : ℚ := 0

/-- The value the unconditional projection pass writes into p.at(7) (Ty) for
any intrinsics: the source (rs_base.cpp line 161) sets it to 0. -/
def rawProjTy (_ : Intrinsics) : ℚ := 0

/-- RealSenseBase::updateVideoStreamCalibData (rs_base.cpp lines 140-189):
fill the camera-info entry of the profile's stream from the intrinsics —
width/height, frame id from the catalog, the written K cells (indices
0,2,4,5,8; the others are left as they were), all twelve P cells, the
identity R, the plumb_bob distortion model and the five coefficients; then,
when the stream is DEPTH and both DEPTH and COLOR are enabled, force the
translation terms P[3] and P[7] to zero. -/
def updateVideoStreamCalibData (s : RSState) (vp : VideoProfile) : RSState :=
  let type_index : StreamId := ⟨vp.kind, vp.index⟩
  let intrinsic := vp.intr
  let ci := s.camera_info type_index
  let k1 : Nat → ℚ :=
    updIdx (updIdx (updIdx (updIdx (updIdx ci.k 0 intrinsic.fx) 2 intrinsic.ppx)
      4 intrinsic.fy) 5 intrinsic.ppy) 8 1
  let p1 : Nat → ℚ :=
    updIdx (updIdx (updIdx (updIdx (updIdx (updIdx (updIdx (updIdx (updIdx
      (updIdx (updIdx (updIdx ci.p 0 (k1 0)) 1 0) 2 (k1 2)) 3 0) 4 0)
      5 (k1 4)) 6 (k1 5)) 7 0) 8 0) 9 0) 10 1) 11 0
  let r1 : Nat → ℚ :=
    updIdx (updIdx (updIdx (updIdx (updIdx (updIdx (updIdx (updIdx
      (updIdx ci.r 0 1) 1 0) 2 0) 3 0) 4 1) 5 0) 6 0) 7 0) 8 1
  let d1 : List ℚ :=
    [intrinsic.coeffs 0, intrinsic.coeffs 1, intrinsic.coeffs 2,
     intrinsic.coeffs 3, intrinsic.coeffs 4]
  let p2 : Nat → ℚ :=
    if type_index = DEPTH ∧ s.enable DEPTH = true ∧ s.enable COLOR = true then
      updIdx (updIdx p1 3 0) 7 0
    else p1
  let ci2 : CameraInfo :=
    { header := { frame_id := OPTICAL_FRAME_ID type_index, stamp := ci.header.stamp }
      width := intrinsic.width
      height := intrinsic.height
      k := k1
      p := p2
      r := r1
      distortion_model := "plumb_bob"
      d := d1 }
  { s with camera_info := updMap s.camera_info type_index ci2 }

/-- The camera-info entry of a profile's stream after the calibration
update. -/
def calibOf (s : RSState) (vp : VideoProfile) : CameraInfo :=
  (updateVideoStreamCalibData s vp).camera_info ⟨vp.kind, vp.index⟩

/-- The component state right after construction: nothing enabled, empty
config, default-constructed per-stream records. -/
def initState : RSState :=
  { enable := fun _ => false
    cfg := fun _ => none
    stream_info := fun _ => ⟨0, 0, 0⟩
    camera_info := fun _ => defaultCameraInfo }

/-- A concrete state with COLOR set up and enabled at 640x480, 30 fps, as
after setupStream(COLOR) with the default parameters and the enabled flag
set. -/
def enabledColorState : RSState :=
  { enable := fun t => if t = COLOR then true else false
    cfg := fun t => if t = COLOR then
        some (ConfigRequest.videoProfile 640 480 "RGB8" 30) else none
    stream_info := fun t => if t = COLOR then ⟨640, 480, 30⟩ else ⟨0, 0, 0⟩
    camera_info := fun _ => defaultCameraInfo }

/-- A concrete state with both DEPTH and COLOR enabled at the defaults. -/
def depthColorState : RSState :=
  { enable := fun t => if t = DEPTH ∨ t = COLOR then true else false
    cfg := fun t => if t = DEPTH then
        some (ConfigRequest.videoProfile 640 480 "Z16" 30)
      else if t = COLOR then
        some (ConfigRequest.videoProfile 640 480 "RGB8" 30)
      else none
    stream_info := fun t => if t = DEPTH ∨ t = COLOR then ⟨640, 480, 30⟩ else ⟨0, 0, 0⟩
    camera_info := fun _ => defaultCameraInfo }

/-- A concrete DEPTH video profile with simple intrinsics. -/
def depthProfile : VideoProfile :=
  { kind := StreamKind.depth
    index := 0
    intr := { width := 640, height := 480, ppx := 320, ppy := 240,
              fx := 600, fy := 600, coeffs := fun _ => 0 } }

/-- A concrete COLOR video profile with simple intrinsics. -/
def colorProfile : VideoProfile :=
  { kind := StreamKind.color
    index := 0
    intr := { width := 640, height := 480, ppx := 321, ppy := 241,
              fx := 610, fy := 611, coeffs := fun j => (j : ℚ) / 100 } }

/-- Narrowing an int64 value already in 32-bit range is the identity. -/
theorem toInt32_eq_self (x : Int) (h1 : -2147483648 ≤ x) (h2 : x < 2147483648) :
    toInt32 x = x := by
  unfold toInt32
  omega

/-- Claim C1 (code bug evaluated at the failing input): the claimed invariant
that the SDK config contains a stream iff its enable flag is true is broken by
changeResolution — starting from the initial state with COLOR disabled, a
successful changeResolution(COLOR, [640, 480]) (SDK oracle resolves the
proposal) leaves COLOR present in the SDK config while enable_[COLOR] is
still false, because cfg_.enable_stream runs before can_resolve and the
success path never checks the enable flag before mutating the config. -/
theorem changeResolution_breaks_cfg_enable_mirror :
    (changeResolution (fun _ => true) initState COLOR
        (Param.intArrayParam [640, 480])).map
      (fun o => ((o.1.cfg COLOR).isSome, o.1.enable COLOR, o.2.1.successful)) =
    some (true, false, true) := rfl

/-- Claim C2 (code bug evaluated at the failing input): with COLOR enabled at
640x480/30, a changeResolution(COLOR, [99999, 99999]) that the SDK cannot
resolve returns successful=false with reason "Unsupported resolution.",
leaves stream_info[COLOR] and enable_[COLOR] unchanged and performs no
pipeline restart — but the SDK config is not rolled back: it retains the
rejected (99999, 99999) proposal instead of the pre-call (640, 480) entry. -/
theorem failed_changeResolution_leaves_proposal_in_cfg :
    (changeResolution (fun _ => false) enabledColorState COLOR
        (Param.intArrayParam [99999, 99999])).map
      (fun o => (o.1.cfg COLOR, o.1.stream_info COLOR, o.1.enable COLOR,
        o.2.1, o.2.2)) =
    some (some (ConfigRequest.videoProfile 99999 99999 "RGB8" 30),
      ⟨640, 480, 30⟩, true,
      { successful := false, reason := "Unsupported resolution." }, []) ∧
    enabledColorState.cfg COLOR =
      some (ConfigRequest.videoProfile 640 480 "RGB8" 30) :=
  ⟨rfl, rfl⟩

/-- Claim C3 (counterexample): the restart performed by changeResolution on
the enabled COLOR stream is stop followed immediately by start — the event
trace contains no 200 ms settling sleep, refuting the claim that every
reconfiguration restart follows stop, then a ~200 ms delay, then start. -/
theorem changeResolution_restart_omits_settling_delay :
    (changeResolution (fun _ => true) enabledColorState COLOR
        (Param.intArrayParam [640, 480])).map (fun o => o.2.2) =
      some [Event.stop, Event.start] ∧
    Event.sleep 200 ∉ [Event.stop, Event.start] :=
  ⟨rfl, by decide⟩

/-- Claim C3 (amended): a pipeline restart performed by a reconfiguration
operation completes before the operation returns, and its event sequence is:
for toggleStream enabling a disabled stream, stop, then a 200 ms settling
sleep, then start; for changeResolution and changeFPS on an enabled stream
whose proposal the SDK resolves, stop then start with no settling sleep. -/
theorem restart_event_sequences
    (canResolve : (StreamId → Option ConfigRequest) → Bool)
    (s : RSState) (stream : StreamId) (w h i : Int) (rest : List Int) :
    (s.enable stream = false →
      (toggleStream s stream (Param.boolParam true)).2.2 =
        [Event.stop, Event.sleep 200, Event.start]) ∧
    (s.enable stream = true → canResolve (resolutionProposal s stream w h) = true →
      (changeResolution canResolve s stream
          (Param.intArrayParam (w :: h :: rest))).map (fun o => o.2.2) =
        some [Event.stop, Event.start]) ∧
    (s.enable stream = true → canResolve (fpsProposal s stream (toInt32 i)) = true →
      (changeFPS canResolve s stream (Param.intParam i)).2.2 =
        [Event.stop, Event.start]) := by
  refine ⟨?_, ?_, ?_⟩
  · intro he
    simp [toggleStream, he]
  · intro he hc
    simp [changeResolution, hc, he]
  · intro he hc
    simp [changeFPS, hc, he]

/-- Witness for the amended C3 theorem at concrete inputs: the toggleStream
enable restart from the initial state and the changeResolution restart on the
enabled COLOR stream. -/
theorem restart_event_sequences_witness :
    (toggleStream initState COLOR (Param.boolParam true)).2.2 =
      [Event.stop, Event.sleep 200, Event.start] ∧
    (changeResolution (fun _ => true) enabledColorState COLOR
        (Param.intArrayParam [640, 480])).map (fun o => o.2.2) =
      some [Event.stop, Event.start] :=
  ⟨(restart_event_sequences (fun _ => true) initState COLOR 640 480 30 []).1 rfl,
   (restart_event_sequences (fun _ => true) enabledColorState COLOR 640 480 30 []).2.1
     rfl rfl⟩

/-- Claim C4: when changeResolution(s, [w, h]) returns successful=true (the
parameter is a well-formed integer array and the SDK resolves the proposal),
the committed stream_info width and height equal w and h whether or not the
stream was enabled, and the pipeline restart (stop then start) happens iff
the stream was enabled at the time of the call.  The w and h bounds state
that the values survive the C++ int narrowing. -/
theorem changeResolution_commits_resolution
    (canResolve : (StreamId → Option ConfigRequest) → Bool)
    (s : RSState) (stream : StreamId) (w h : Int) (rest : List Int)
    (hw1 : -2147483648 ≤ w) (hw2 : w < 2147483648)
    (hh1 : -2147483648 ≤ h) (hh2 : h < 2147483648)
    (hsucc : (changeResolution canResolve s stream
        (Param.intArrayParam (w :: h :: rest))).map (fun o => o.2.1.successful) =
      some true) :
    (changeResolution canResolve s stream (Param.intArrayParam (w :: h :: rest))).map
      (fun o => ((o.1.stream_info stream).width, (o.1.stream_info stream).height,
        o.2.2)) =
    some (w, h, if s.enable stream = true then [Event.stop, Event.start] else []) := by
  by_cases hc : canResolve (resolutionProposal s stream w h)
  · simp [changeResolution, hc, updMap, toInt32_eq_self w hw1 hw2,
      toInt32_eq_self h hh1 hh2]
  · simp [changeResolution, hc] at hsucc

/-- Witness for C4: a successful changeResolution(COLOR, [320, 240]) on the
enabled COLOR stream commits 320x240 and restarts the pipeline. -/
theorem changeResolution_commits_resolution_witness :
    (changeResolution (fun _ => true) enabledColorState COLOR
        (Param.intArrayParam [320, 240])).map
      (fun o => ((o.1.stream_info COLOR).width, (o.1.stream_info COLOR).height,
        o.2.2)) =
    some (320, 240, if enabledColorState.enable COLOR = true then
      [Event.stop, Event.start] else []) :=
  changeResolution_commits_resolution (fun _ => true) enabledColorState COLOR
    320 240 [] (by decide) (by decide) (by decide) (by decide) rfl

/-- Claim C5: after updateVideoStreamCalibData runs for a DEPTH profile with
DEPTH enabled, if COLOR is also enabled the translation terms P[3] and P[7]
are (forced to) zero, and if COLOR is disabled they carry the raw, non-forced
values the unconditional projection pass writes from the intrinsics — which
the source fixes at zero (rs_base.cpp lines 157 and 161), so the two cases
coincide in value. -/
theorem depth_translation_terms (s : RSState) (vp : VideoProfile)
    (hk : vp.kind = StreamKind.depth) (hi : vp.index = 0)
    (hd : s.enable DEPTH = true) :
    (s.enable COLOR = true →
      (calibOf s vp).p 3 = 0 ∧ (calibOf s vp).p 7 = 0) ∧
    (s.enable COLOR = false →
      (calibOf s vp).p 3 = rawProjTx vp.intr ∧
      (calibOf s vp).p 7 = rawProjTy vp.intr) := by
  obtain ⟨k, i, intr⟩ := vp
  simp only at hk hi
  subst hk hi
  simp only [DEPTH] at hd
  constructor
  · intro hc
    simp only [COLOR] at hc
    simp [calibOf, updateVideoStreamCalibData, updMap, updIdx, DEPTH, COLOR, hd, hc]
  · intro hc
    simp only [COLOR] at hc
    simp [calibOf, updateVideoStreamCalibData, updMap, updIdx, DEPTH, COLOR, hd, hc,
      rawProjTx, rawProjTy]

/-- Witness for C5: with DEPTH and COLOR both enabled, the depth camera-info
projection translation terms are zero after the calibration update. -/
theorem depth_translation_terms_witness :
    (calibOf depthColorState depthProfile).p 3 = 0 ∧
    (calibOf depthColorState depthProfile).p 7 = 0 :=
  (depth_translation_terms depthColorState depthProfile rfl rfl rfl).1 rfl

/-- Claim C6: every image message published by publishImageTopic carries
header.frame_id equal to the OPTICAL_FRAME_ID catalog entry of the frame's
(kind, index) and header.stamp equal to the caller's timestamp, on both the
intra-process and the non-intra-process paths, and the camera-info message
published in the same call carries the same stamp. -/
theorem publishImageTopic_header_contract (s : RSState) (frame : VideoFrame)
    (time : Int) (intraProcess : Bool) :
    (publishImageTopic s frame time intraProcess).2.1.header.frame_id =
      OPTICAL_FRAME_ID ⟨frame.kind, frame.index⟩ ∧
    (publishImageTopic s frame time intraProcess).2.1.header.stamp = time ∧
    (publishImageTopic s frame time intraProcess).2.2.header.stamp = time := by
  cases intraProcess <;> simp [publishImageTopic]

/-- Claim C7: calling toggleStream with a boolean parameter equal to the
stream's current enable state returns successful=false with the exact no-op
reason and leaves the state untouched with no pipeline events. -/
theorem toggleStream_noop_rejected (s : RSState) (stream : StreamId) (v : Bool)
    (h : v = s.enable stream) :
    toggleStream s stream (Param.boolParam v) =
      (s, { successful := false,
            reason := "Parameter is equal to the previous value. Do nothing." }, []) := by
  subst h
  cases hb : s.enable stream <;> simp [toggleStream, hb]

/-- Witness for C7: toggling the disabled COLOR stream to false in the
initial state is rejected as a no-op. -/
theorem toggleStream_noop_rejected_witness :
    toggleStream initState COLOR (Param.boolParam false) =
      (initState, { successful := false,
                    reason := "Parameter is equal to the previous value. Do nothing." }, []) :=
  toggleStream_noop_rejected initState COLOR false rfl

/-- Claim C8: a parameter of the wrong type is rejected synchronously with
the fixed reason — "Type should be boolean." by toggleStream, "Type should be
integer array." by changeResolution, "Type should be integer." by changeFPS —
returning the state unchanged and performing no pipeline events. -/
theorem type_mismatch_rejected
    (canResolve : (StreamId → Option ConfigRequest) → Bool)
    (s : RSState) (stream : StreamId) (p1 p2 p3 : Param)
    (h1 : p1.isBool = false) (h2 : p2.isIntArray = false) (h3 : p3.isInt = false) :
    toggleStream s stream p1 =
      (s, { successful := false, reason := "Type should be boolean." }, []) ∧
    changeResolution canResolve s stream p2 =
      some (s, { successful := false, reason := "Type should be integer array." }, []) ∧
    changeFPS canResolve s stream p3 =
      (s, { successful := false, reason := "Type should be integer." }, []) := by
  refine ⟨?_, ?_, ?_⟩
  · cases p1 <;> simp_all [toggleStream, Param.isBool]
  · cases p2 <;> simp_all [changeResolution, Param.isIntArray]
  · cases p3 <;> simp_all [changeFPS, Param.isInt]

/-- Witness for C8: concrete wrongly-typed parameters for each handler in the
initial state. -/
theorem type_mismatch_rejected_witness :
    toggleStream initState COLOR (Param.intParam 0) =
      (initState, { successful := false, reason := "Type should be boolean." }, []) ∧
    changeResolution (fun _ => true) initState COLOR (Param.boolParam true) =
      some (initState, { successful := false,
                         reason := "Type should be integer array." }, []) ∧
    changeFPS (fun _ => true) initState COLOR (Param.intArrayParam []) =
      (initState, { successful := false, reason := "Type should be integer." }, []) :=
  type_mismatch_rejected (fun _ => true) initState COLOR (Param.intParam 0)
    (Param.boolParam true) (Param.intArrayParam []) rfl rfl rfl

/-- Claim C9: updateVideoStreamCalibData fills the camera-info of the
profile's stream from the intrinsics: K is the row-major 3x3 matrix
[[fx, 0, ppx], [0, fy, ppy], [0, 0, 1]] (given that the never-written K cells
1, 3, 6, 7 held zero, as in a default-constructed message), P is
[[fx, 0, ppx, 0], [0, fy, ppy, 0], [0, 0, 1, 0]], R is the identity, the
distortion model is plumb_bob, d is the five coefficients, and the header
frame id is the OPTICAL_FRAME_ID catalog entry. -/
theorem updateVideoStreamCalibData_fields (s : RSState) (vp : VideoProfile)
    (h1 : (s.camera_info ⟨vp.kind, vp.index⟩).k 1 = 0)
    (h3 : (s.camera_info ⟨vp.kind, vp.index⟩).k 3 = 0)
    (h6 : (s.camera_info ⟨vp.kind, vp.index⟩).k 6 = 0)
    (h7 : (s.camera_info ⟨vp.kind, vp.index⟩).k 7 = 0) :
    (calibOf s vp).k 0 = vp.intr.fx ∧ (calibOf s vp).k 1 = 0 ∧
    (calibOf s vp).k 2 = vp.intr.ppx ∧ (calibOf s vp).k 3 = 0 ∧
    (calibOf s vp).k 4 = vp.intr.fy ∧ (calibOf s vp).k 5 = vp.intr.ppy ∧
    (calibOf s vp).k 6 = 0 ∧ (calibOf s vp).k 7 = 0 ∧ (calibOf s vp).k 8 = 1 ∧
    (calibOf s vp).p 0 = vp.intr.fx ∧ (calibOf s vp).p 1 = 0 ∧
    (calibOf s vp).p 2 = vp.intr.ppx ∧ (calibOf s vp).p 3 = 0 ∧
    (calibOf s vp).p 4 = 0 ∧ (calibOf s vp).p 5 = vp.intr.fy ∧
    (calibOf s vp).p 6 = vp.intr.ppy ∧ (calibOf s vp).p 7 = 0 ∧
    (calibOf s vp).p 8 = 0 ∧ (calibOf s vp).p 9 = 0 ∧
    (calibOf s vp).p 10 = 1 ∧ (calibOf s vp).p 11 = 0 ∧
    (calibOf s vp).r 0 = 1 ∧ (calibOf s vp).r 1 = 0 ∧ (calibOf s vp).r 2 = 0 ∧
    (calibOf s vp).r 3 = 0 ∧ (calibOf s vp).r 4 = 1 ∧ (calibOf s vp).r 5 = 0 ∧
    (calibOf s vp).r 6 = 0 ∧ (calibOf s vp).r 7 = 0 ∧ (calibOf s vp).r 8 = 1 ∧
    (calibOf s vp).distortion_model = "plumb_bob" ∧
    (calibOf s vp).d = [vp.intr.coeffs 0, vp.intr.coeffs 1, vp.intr.coeffs 2,
      vp.intr.coeffs 3, vp.intr.coeffs 4] ∧
    (calibOf s vp).header.frame_id = OPTICAL_FRAME_ID ⟨vp.kind, vp.index⟩ := by
  by_cases hsp : (⟨vp.kind, vp.index⟩ : StreamId) = DEPTH ∧
      s.enable DEPTH = true ∧ s.enable COLOR = true
  · obtain ⟨heq, hd2, hc2⟩ := hsp
    rw [heq] at h1 h3 h6 h7
    simp [calibOf, updateVideoStreamCalibData, updMap, updIdx, heq, hd2, hc2,
      h1, h3, h6, h7]
  · simp [calibOf, updateVideoStreamCalibData, updMap, updIdx, hsp, h1, h3, h6, h7]

/-- Witness for C9: the calibration update for a concrete COLOR profile in
the initial state (default-constructed camera-info). -/
theorem updateVideoStreamCalibData_fields_witness :
    (calibOf initState colorProfile).k 0 = colorProfile.intr.fx ∧
    (calibOf initState colorProfile).k 1 = 0 ∧
    (calibOf initState colorProfile).k 2 = colorProfile.intr.ppx ∧
    (calibOf initState colorProfile).k 3 = 0 ∧
    (calibOf initState colorProfile).k 4 = colorProfile.intr.fy ∧
    (calibOf initState colorProfile).k 5 = colorProfile.intr.ppy ∧
    (calibOf initState colorProfile).k 6 = 0 ∧
    (calibOf initState colorProfile).k 7 = 0 ∧
    (calibOf initState colorProfile).k 8 = 1 ∧
    (calibOf initState colorProfile).p 0 = colorProfile.intr.fx ∧
    (calibOf initState colorProfile).p 1 = 0 ∧
    (calibOf initState colorProfile).p 2 = colorProfile.intr.ppx ∧
    (calibOf initState colorProfile).p 3 = 0 ∧
    (calibOf initState colorProfile).p 4 = 0 ∧
    (calibOf initState colorProfile).p 5 = colorProfile.intr.fy ∧
    (calibOf initState colorProfile).p 6 = colorProfile.intr.ppy ∧
    (calibOf initState colorProfile).p 7 = 0 ∧
    (calibOf initState colorProfile).p 8 = 0 ∧
    (calibOf initState colorProfile).p 9 = 0 ∧
    (calibOf initState colorProfile).p 10 = 1 ∧
    (calibOf initState colorProfile).p 11 = 0 ∧
    (calibOf initState colorProfile).r 0 = 1 ∧
    (calibOf initState colorProfile).r 1 = 0 ∧
    (calibOf initState colorProfile).r 2 = 0 ∧
    (calibOf initState colorProfile).r 3 = 0 ∧
    (calibOf initState colorProfile).r 4 = 1 ∧
    (calibOf initState colorProfile).r 5 = 0 ∧
    (calibOf initState colorProfile).r 6 = 0 ∧
    (calibOf initState colorProfile).r 7 = 0 ∧
    (calibOf initState colorProfile).r 8 = 1 ∧
    (calibOf initState colorProfile).distortion_model = "plumb_bob" ∧
    (calibOf initState colorProfile).d = [colorProfile.intr.coeffs 0,
      colorProfile.intr.coeffs 1, colorProfile.intr.coeffs 2,
      colorProfile.intr.coeffs 3, colorProfile.intr.coeffs 4] ∧
    (calibOf initState colorProfile).header.frame_id =
      OPTICAL_FRAME_ID ⟨colorProfile.kind, colorProfile.index⟩ :=
  updateVideoStreamCalibData_fields initState colorProfile rfl rfl rfl rfl

/-- Claim C10: given a resolution parameter of at least two entries (the
declared default), setupStream performs only in-bounds accesses on its local
resolution vector exactly when the stream is one of the nine catalogued
identities; for any other identity the video branch runs with the vector left
empty and the reads of res[0] and res[1] are out of bounds (modelled as the
none outcome). -/
theorem setupStream_inbounds_iff (s : RSState) (stream : StreamId)
    (p : SetupParams) (hres : 2 ≤ p.resolution.length) :
    (setupStream s stream p).isSome = true ↔
      (stream = ACCEL ∨ stream = GYRO ∨ stream = POSE ∨ stream = COLOR ∨
       stream = DEPTH ∨ stream = INFRA1 ∨ stream = INFRA2 ∨
       stream = FISHEYE1 ∨ stream = FISHEYE2) := by
  obtain ⟨w, h, rest, hres2⟩ : ∃ w h rest, p.resolution = w :: h :: rest := by
    rcases hr : p.resolution with _ | ⟨w, _ | ⟨h, rest⟩⟩ <;> rw [hr] at hres
    · simp at hres
    · simp at hres
    · exact ⟨w, h, rest, rfl⟩
  by_cases h1 : stream = ACCEL ∨ stream = GYRO
  · simp [setupStream, h1]
    try tauto
  · by_cases h2 : stream = POSE
    · simp [setupStream, h1, h2]
      try tauto
    · by_cases h3 : stream = COLOR ∨ stream = DEPTH ∨ stream = INFRA1 ∨ stream = INFRA2
      · simp [setupStream, h1, h2, h3, hres2]
        try tauto
      · by_cases h4 : stream = FISHEYE1 ∨ stream = FISHEYE2
        · simp [setupStream, h1, h2, h3, h4, hres2]
          try tauto
        · simp [setupStream, h1, h2, h3, h4]
          try tauto

/-- Witness for C10: with the default two-entry resolution, setting up the
catalogued COLOR stream stays in bounds. -/
theorem setupStream_inbounds_iff_witness :
    2 ≤ ([640, 480] : List Int).length ∧
    ((setupStream initState COLOR
        { enabled := false, resolution := [640, 480], fps := 30 }).isSome = true ↔
      (COLOR = ACCEL ∨ COLOR = GYRO ∨ COLOR = POSE ∨ COLOR = COLOR ∨
       COLOR = DEPTH ∨ COLOR = INFRA1 ∨ COLOR = INFRA2 ∨
       COLOR = FISHEYE1 ∨ COLOR = FISHEYE2)) :=
  ⟨by decide, setupStream_inbounds_iff initState COLOR
    { enabled := false, resolution := [640, 480], fps := 30 } (by decide)⟩

end RealSense
